import Mathlib

/-!
Verification development for the core orchestration engine of the Mosaic
terminal multiplexer (sources: src/main.rs, src/common/mod.rs,
src/server/mod.rs, src/client/mod.rs, zellij-tile/src/lib.rs).

The Rust sources are embedded shallowly: enums become inductives, the
per-bus handler loops become step functions returning explicit effect
lists, `unwrap` panics become a distinguished `panicked` outcome, and
`std::sync::mpsc` channels are modelled as queues with explicit capacity.
-/

namespace Mosaic

/-- Path expressions, a free-term model of Rust `PathBuf` restricted to the
operations the sources apply: `PathBuf::from`/literals (`base`),
`.with_extension("wasm")` and `Path::join`. -/
inductive PathBuf where
  | base (s : String)
  | with_extension_wasm (p : PathBuf)
  | join (dir : PathBuf) (p : PathBuf)
  deriving DecidableEq, Repr

/-- `PaneId` (src/panes): `Terminal(RawFd)` or `Plugin(u32)`. -/
inductive PaneId where
  | Terminal (fd : Nat)
  | Plugin (id : Nat)
  deriving DecidableEq, Repr

/-- Terminal-emulator parser events (the `vte` crate is external to the
core); only their presence as a payload matters here. -/
inductive VteEvent where
  | mk (bytes : List Nat)
  deriving DecidableEq, Repr

/-- `ScreenInstruction` (src/common/screen, variants as matched exhaustively
by the screen thread loop in src/common/mod.rs lines 252-379). Reply
channels do not occur here; byte buffers are `List Nat`. -/
inductive ScreenInstruction where
  | Pty (pid : PaneId) (ev : VteEvent)
  | Render
  | NewPane (pid : PaneId)
  | HorizontalSplit (pid : PaneId)
  | VerticalSplit (pid : PaneId)
  | WriteCharacter (bytes : List Nat)
  | ResizeLeft
  | ResizeRight
  | ResizeDown
  | ResizeUp
  | MoveFocus
  | MoveFocusLeft
  | MoveFocusDown
  | MoveFocusRight
  | MoveFocusUp
  | ScrollUp
  | ScrollDown
  | ClearScroll
  | CloseFocusedPane
  | SetSelectable (id : PaneId) (selectable : Bool)
  | SetMaxHeight (id : PaneId) (max_height : Nat)
  | SetInvisibleBorders (id : PaneId) (invisible : Bool)
  | ClosePane (id : PaneId)
  | ToggleActiveTerminalFullscreen
  | NewTab (fd : Nat)
  | SwitchTabNext
  | SwitchTabPrev
  | CloseTab
  | ApplyLayout (layout_path : PathBuf) (new_pane_pids : List Nat)
  | Exit
  deriving DecidableEq, Repr

/-- `PtyInstruction` (src/common/pty_bus, variants as matched exhaustively
by the pty thread loop in src/server/mod.rs lines 64-114). -/
inductive PtyInstruction where
  | SpawnTerminal (file_to_open : Option PathBuf)
  | SpawnTerminalVertically (file_to_open : Option PathBuf)
  | SpawnTerminalHorizontally (file_to_open : Option PathBuf)
  | NewTab
  | ClosePane (id : PaneId)
  | CloseTab (ids : List PaneId)
  | Quit
  deriving DecidableEq, Repr

/-- `PluginInstruction` (src/common/wasm_vm, variants as matched
exhaustively by the wasm thread loop in src/common/mod.rs lines 402-504).
Rust reply channels (`Sender<u32>`, `Sender<String>`) are modelled as
channel identifiers. -/
inductive PluginInstruction where
  | Load (pid_tx : Nat) (path : PathBuf)
  | Draw (buf_tx : Nat) (pid : Nat) (rows : Nat) (cols : Nat)
  | Input (pid : Nat) (input_bytes : List Nat)
  | GlobalInput (input_bytes : List Nat)
  | Unload (pid : Nat)
  | Exit
  deriving DecidableEq, Repr

/-- Modelled from the spec: the input-mode sub-state held in `AppState`
(`InputState`, src/common/input/handler.rs, not among the provided
sources). Only its existence as a payload matters for the claims. -/
inductive InputState where
  | default
  deriving DecidableEq, Repr

/-- `AppState` (src/common/mod.rs lines 62-65). -/
structure AppState where
  input_state : InputState
  deriving DecidableEq, Repr

/-- `AppInstruction` (src/common/mod.rs lines 156-164). -/
inductive AppInstruction where
  | GetState (state_tx : Nat)
  | SetState (state : AppState)
  | Exit
  | Error (backtrace : String)
  | ToPty (i : PtyInstruction)
  | ToScreen (i : ScreenInstruction)
  | ToPlugin (i : PluginInstruction)
  deriving DecidableEq, Repr

/-- `ServerInstruction` (src/common/mod.rs lines 41-51). The final variant
is spelled `Exit` at its definition site; the match in src/server/mod.rs
line 165 refers to it as `Quit` (the spec records the two diverging
variants as an open question). -/
inductive ServerInstruction where
  | OpenFile (p : PathBuf)
  | SplitHorizontally
  | SplitVertically
  | MoveFocus
  | NewClient (buffer_path : String)
  | ToPty (i : PtyInstruction)
  | ToScreen (i : ScreenInstruction)
  | ClosePluginPane (pid : Nat)
  | Exit
  deriving DecidableEq, Repr

/-- `ClientInstruction` (src/common/mod.rs lines 53-59). -/
inductive ClientInstruction where
  | ToScreen (i : ScreenInstruction)
  | ClosePluginPane (pid : Nat)
  | Error (e : String)
  | Exit
  deriving DecidableEq, Repr

/-- `impl From<ClientInstruction> for AppInstruction`
(src/common/mod.rs lines 166-177). -/
def AppInstruction.fromClient : ClientInstruction → AppInstruction
  | .ToScreen s => .ToScreen s
  | .Error e => .Error e
  | .ClosePluginPane p => .ToPlugin (.Unload p)
  | .Exit => .Exit

/-- Modelled from the spec: the per-bus message-kind tag carried by a
`ContextType::Screen(kind)` entry (`ScreenContext`, src/common/errors.rs,
not among the provided sources); one kind per `ScreenInstruction` variant. -/
inductive ScreenContext where
  | HandlePtyEvent
  | Render
  | NewPane
  | HorizontalSplit
  | VerticalSplit
  | WriteCharacter
  | ResizeLeft
  | ResizeRight
  | ResizeDown
  | ResizeUp
  | MoveFocus
  | MoveFocusLeft
  | MoveFocusDown
  | MoveFocusRight
  | MoveFocusUp
  | ScrollUp
  | ScrollDown
  | ClearScroll
  | CloseFocusedPane
  | SetSelectable
  | SetMaxHeight
  | SetInvisibleBorders
  | ClosePane
  | ToggleActiveTerminalFullscreen
  | NewTab
  | SwitchTabNext
  | SwitchTabPrev
  | CloseTab
  | ApplyLayout
  | Exit
  deriving DecidableEq, Repr

/-- Modelled from the spec: `ScreenContext::from(&ScreenInstruction)`
(src/common/errors.rs, not among the provided sources): each instruction
variant maps to its kind. -/
def ScreenContext.fromInstruction : ScreenInstruction → ScreenContext
  | .Pty _ _ => .HandlePtyEvent
  | .Render => .Render
  | .NewPane _ => .NewPane
  | .HorizontalSplit _ => .HorizontalSplit
  | .VerticalSplit _ => .VerticalSplit
  | .WriteCharacter _ => .WriteCharacter
  | .ResizeLeft => .ResizeLeft
  | .ResizeRight => .ResizeRight
  | .ResizeDown => .ResizeDown
  | .ResizeUp => .ResizeUp
  | .MoveFocus => .MoveFocus
  | .MoveFocusLeft => .MoveFocusLeft
  | .MoveFocusDown => .MoveFocusDown
  | .MoveFocusRight => .MoveFocusRight
  | .MoveFocusUp => .MoveFocusUp
  | .ScrollUp => .ScrollUp
  | .ScrollDown => .ScrollDown
  | .ClearScroll => .ClearScroll
  | .CloseFocusedPane => .CloseFocusedPane
  | .SetSelectable _ _ => .SetSelectable
  | .SetMaxHeight _ _ => .SetMaxHeight
  | .SetInvisibleBorders _ _ => .SetInvisibleBorders
  | .ClosePane _ => .ClosePane
  | .ToggleActiveTerminalFullscreen => .ToggleActiveTerminalFullscreen
  | .NewTab _ => .NewTab
  | .SwitchTabNext => .SwitchTabNext
  | .SwitchTabPrev => .SwitchTabPrev
  | .CloseTab => .CloseTab
  | .ApplyLayout _ _ => .ApplyLayout
  | .Exit => .Exit

/-- Modelled from the spec: the message-kind tag of a
`ContextType::Pty(kind)` entry (`PtyContext`, src/common/errors.rs, not
among the provided sources). -/
inductive PtyContext where
  | SpawnTerminal
  | SpawnTerminalVertically
  | SpawnTerminalHorizontally
  | NewTab
  | ClosePane
  | CloseTab
  | Quit
  deriving DecidableEq, Repr

/-- Modelled from the spec: `PtyContext::from(&PtyInstruction)`
(src/common/errors.rs, not among the provided sources). -/
def PtyContext.fromInstruction : PtyInstruction → PtyContext
  | .SpawnTerminal _ => .SpawnTerminal
  | .SpawnTerminalVertically _ => .SpawnTerminalVertically
  | .SpawnTerminalHorizontally _ => .SpawnTerminalHorizontally
  | .NewTab => .NewTab
  | .ClosePane _ => .ClosePane
  | .CloseTab _ => .CloseTab
  | .Quit => .Quit

/-- Modelled from the spec: the message-kind tag of a
`ContextType::Plugin(kind)` entry (`PluginContext`, src/common/errors.rs,
not among the provided sources). -/
inductive PluginContext where
  | Load
  | Draw
  | Input
  | GlobalInput
  | Unload
  | Exit
  deriving DecidableEq, Repr

/-- Modelled from the spec: `PluginContext::from(&PluginInstruction)`
(src/common/errors.rs, not among the provided sources). -/
def PluginContext.fromInstruction : PluginInstruction → PluginContext
  | .Load _ _ => .Load
  | .Draw _ _ _ _ => .Draw
  | .Input _ _ => .Input
  | .GlobalInput _ => .GlobalInput
  | .Unload _ => .Unload
  | .Exit => .Exit

/-- Modelled from the spec: the message-kind tag of a
`ContextType::App(kind)` entry (`AppContext`, src/common/errors.rs, not
among the provided sources). -/
inductive AppContext where
  | GetState
  | SetState
  | Exit
  | Error
  | ToPty
  | ToScreen
  | ToPlugin
  deriving DecidableEq, Repr

/-- Modelled from the spec: `AppContext::from(&AppInstruction)`
(src/common/errors.rs, not among the provided sources). -/
def AppContext.fromInstruction : AppInstruction → AppContext
  | .GetState _ => .GetState
  | .SetState _ => .SetState
  | .Exit => .Exit
  | .Error _ => .Error
  | .ToPty _ => .ToPty
  | .ToScreen _ => .ToScreen
  | .ToPlugin _ => .ToPlugin

/-- `ContextType` (spec §3: values `App(kind)`, `Screen(kind)`, `Pty(kind)`,
`Plugin(kind)`, `IPCServer`; src/common/errors.rs, not among the provided
sources). -/
inductive ContextType where
  | App (kind : AppContext)
  | Screen (kind : ScreenContext)
  | Pty (kind : PtyContext)
  | Plugin (kind : PluginContext)
  | IPCServer
  deriving DecidableEq, Repr

/-- Modelled from the spec: the capacity of the fixed-capacity
`ErrorContext` call list (spec §3 fixes no number; any positive capacity
gives the same theorems below). -/
def maxErrorContextCalls : Nat := 6

/-- Modelled from the spec: `ErrorContext` (src/common/errors.rs, not among
the provided sources) — a fixed-capacity ordered list of `ContextType`
entries recording the chain of message kinds an event has flowed through. -/
structure ErrorContext where
  calls : List ContextType
  deriving DecidableEq, Repr

/-- Modelled from the spec: `ErrorContext::new()` — an empty chain. -/
def ErrorContext.new : ErrorContext := ⟨[]⟩

/-- Modelled from the spec: `ErrorContext::add_call` — append the entry for
the bus now handling the message; at capacity the oldest entry is evicted
so the chain always records the most recent hops in order. -/
def ErrorContext.add_call (ctx : ErrorContext) (c : ContextType) : ErrorContext :=
  if ctx.calls.length < maxErrorContextCalls then ⟨ctx.calls ++ [c]⟩
  else ⟨ctx.calls.drop (ctx.calls.length + 1 - maxErrorContextCalls) ++ [c]⟩

/-- The context-update step each handler loop performs on the `ErrorContext`
received with a screen instruction (src/common/mod.rs line 250). -/
def screenLoopCtxUpdate (event : ScreenInstruction) (err_ctx : ErrorContext) : ErrorContext :=
  err_ctx.add_call (.Screen (ScreenContext.fromInstruction event))

/-- Context update in the plugin-host (wasm thread) loop
(src/common/mod.rs line 399). -/
def pluginLoopCtxUpdate (event : PluginInstruction) (err_ctx : ErrorContext) : ErrorContext :=
  err_ctx.add_call (.Plugin (PluginContext.fromInstruction event))

/-- Context update in the pty thread loop (src/server/mod.rs line 63). -/
def ptyLoopCtxUpdate (event : PtyInstruction) (err_ctx : ErrorContext) : ErrorContext :=
  err_ctx.add_call (.Pty (PtyContext.fromInstruction event))

/-- Context update in the ipc_server thread loop (src/server/mod.rs
line 126). -/
def ipcServerLoopCtxUpdate (err_ctx : ErrorContext) : ErrorContext :=
  err_ctx.add_call .IPCServer

/-- Context update in the app dispatcher loop (src/common/mod.rs
line 553). -/
def appLoopCtxUpdate (event : AppInstruction) (err_ctx : ErrorContext) : ErrorContext :=
  err_ctx.add_call (.App (AppContext.fromInstruction event))

/-- A bounded synchronous channel (the model of
`std::sync::mpsc::sync_channel`): a FIFO queue of undelivered messages and
a capacity. -/
structure BoundedChan (T : Type) where
  cap : Nat
  queue : List T
  deriving DecidableEq, Repr

/-- `SenderType<T>` (src/common/mod.rs lines 85-88): either the unbounded
`Sender` flavor or the bounded `SyncSender` flavor. Each handle is paired
with the current state of its channel so that the outcome of a send is a
function of the handle. -/
inductive SenderType (T : Type) where
  | Sender (queue : List (T × ErrorContext))
  | SyncSender (chan : BoundedChan (T × ErrorContext))
  deriving Repr

/-- `SenderWithContext<T>` (src/common/mod.rs lines 90-119). -/
structure SenderWithContext (T : Type) where
  err_ctx : ErrorContext
  sender : SenderType T
  deriving Repr

/-- Outcome of `SenderWithContext::send`: the message is enqueued, or — for
a `SyncSender` whose channel is at capacity — the call blocks until a slot
frees. -/
inductive SendOutcome (T : Type) where
  | delivered (sender : SenderType T)
  | blocks
  deriving Repr

/-- Outcome of `SenderWithContext::try_send`: enqueued, the
`TrySendError::Full` error, or a panic. -/
inductive TrySendOutcome (T : Type) where
  | ok (sender : SenderType T)
  | fullErr
  | panicked
  deriving Repr

/-- `SenderWithContext::send` (src/common/mod.rs lines 101-106): both
flavors enqueue `(event, self.err_ctx)`; the `SyncSender` flavor blocks
when its channel is full. -/
def SenderWithContext.sendMsg (s : SenderWithContext T) (event : T) : SendOutcome T :=
  match s.sender with
  | .Sender q => .delivered (.Sender (q ++ [(event, s.err_ctx)]))
  | .SyncSender c =>
      if c.queue.length < c.cap then
        .delivered (.SyncSender ⟨c.cap, c.queue ++ [(event, s.err_ctx)]⟩)
      else .blocks

/-- `SenderWithContext::try_send` (src/common/mod.rs lines 108-114): only
the `SyncSender` flavor is handled; on the `Sender` flavor the
implementation panics unconditionally. -/
def SenderWithContext.trySendMsg (s : SenderWithContext T) (event : T) : TrySendOutcome T :=
  match s.sender with
  | .SyncSender c =>
      if c.queue.length < c.cap then
        .ok (.SyncSender ⟨c.cap, c.queue ++ [(event, s.err_ctx)]⟩)
      else .fullErr
  | .Sender _ => .panicked

/-- The capacity requested for the app dispatcher channel:
`sync_channel(500)` (src/common/mod.rs line 206). -/
def appChannelCapacity : Nat := 500

/-- The app dispatcher channel as created at startup (src/common/mod.rs
lines 205-208): a bounded synchronous channel of capacity 500, initially
empty. -/
def initialAppChannel : BoundedChan (AppInstruction × ErrorContext) :=
  ⟨appChannelCapacity, []⟩

/-- Messages the ipc_server loop emits while dispatching one
`ServerInstruction` (src/server/mod.rs lines 130-170). -/
inductive ServerSend where
  | toPty (i : PtyInstruction)
  | toApp (i : AppInstruction)
  deriving DecidableEq, Repr

/-- Result of one iteration of the ipc_server loop on a received
instruction: keep looping after the listed sends, or (on the final variant)
send `Quit` to the pty bus, join the pty thread and break. The source match
(src/server/mod.rs lines 130-170) has no arm for `NewClient`, which the
`missingArm` value records. -/
inductive ServerStep where
  | continues (sends : List ServerSend)
  | quits (sends : List ServerSend)
  | missingArm
  deriving DecidableEq, Repr

/-- The ipc_server dispatch (src/server/mod.rs lines 130-170). The final
variant is written `ServerInstruction::Quit` in that file; it is the last
variant of the enum, spelled `Exit` at its definition site in
src/common/mod.rs. -/
def serverDispatch : ServerInstruction → ServerStep
  | .OpenFile file_name => .continues [.toPty (.SpawnTerminal (some file_name))]
  | .SplitHorizontally => .continues [.toPty (.SpawnTerminalHorizontally none)]
  | .SplitVertically => .continues [.toPty (.SpawnTerminalVertically none)]
  | .MoveFocus => .continues [.toApp (.ToScreen .MoveFocus)]
  | .ToPty instruction => .continues [.toPty instruction]
  | .ToScreen instruction => .continues [.toApp (.ToScreen instruction)]
  | .ClosePluginPane pid => .continues [.toApp (.ToPlugin (.Unload pid))]
  | .Exit => .quits [.toPty .Quit]
  | .NewClient _ => .missingArm

/-- Whether the pty thread loop keeps looping after handling an
instruction (src/server/mod.rs lines 64-114): only `Quit` breaks. -/
def ptyLoopContinues : PtyInstruction → Bool
  | .Quit => false
  | _ => true

/-- Whether the screen thread loop keeps looping after handling an
instruction (src/common/mod.rs lines 252-379): only `Exit` breaks. -/
def screenLoopContinues : ScreenInstruction → Bool
  | .Exit => false
  | _ => true

/-- Whether the client router loop keeps looping (src/common/mod.rs lines
531-543): `ClientInstruction::Exit` breaks, everything else is forwarded to
the app bus through `AppInstruction::from`. -/
def routerLoopContinues : ClientInstruction → Bool
  | .Exit => false
  | _ => true

/-- Observable actions of the app dispatcher (main thread of `start`,
src/common/mod.rs). `sendPtyDirect` and `sendRouter` never occur in the
embedded code; they exist so that send sequences the spec describes can be
written down and compared against the code's. -/
inductive AppEffect where
  | sendServer (i : ServerInstruction)
  | sendScreen (i : ScreenInstruction)
  | sendPlugin (i : PluginInstruction)
  | sendPtyDirect (i : PtyInstruction)
  | sendRouter (i : ClientInstruction)
  | joinScreenThread
  | joinWasmThread
  | joinIpcThread
  | joinRouterThread
  | unsetRawMode
  | writeStdout (s : String)
  | flushStdout
  | exitProcess (code : Nat)
  deriving DecidableEq, Repr

/-- `take_snapshot` (src/common/mod.rs line 180): switch to the alternate
screen. -/
def take_snapshot : String := "\x1b[?1049h"

/-- `reset_style` (src/common/mod.rs line 598). -/
def reset_style : String := "\x1b[m"

/-- `show_cursor` (src/common/mod.rs line 599). -/
def show_cursor : String := "\x1b[?25h"

/-- `restore_snapshot` (src/common/mod.rs line 600): leave the alternate
screen. -/
def restore_snapshot : String := "\x1b[?1049l"

/-- `goto_start_of_last_line` (src/common/mod.rs lines 569 and 601):
`format!("\u{1b}[{};{}H", full_screen_ws.rows, 1)`. -/
def goto_start_of_last_line (rows : Nat) : String :=
  "\x1b[" ++ toString rows ++ ";" ++ toString 1 ++ "H"

/-- The `AppInstruction::Error(backtrace)` arm of the app dispatcher
(src/common/mod.rs lines 560-576), as its ordered effect sequence. -/
def errorArmEffects (rows : Nat) (backtrace : String) : List AppEffect :=
  [ .sendServer .Exit
  , .sendScreen .Exit
  , .sendPlugin .Exit
  , .joinScreenThread
  , .joinWasmThread
  , .joinIpcThread
  , .unsetRawMode
  , .writeStdout (goto_start_of_last_line rows ++ "\n" ++ backtrace)
  , .exitProcess 1 ]

/-- `goodbye_message` (src/common/mod.rs lines 602-605). -/
def goodbye_message (rows : Nat) : String :=
  goto_start_of_last_line rows ++ "\n" ++ restore_snapshot ++ reset_style
    ++ show_cursor ++ "Bye from Mosaic!"

/-- The cooperative-shutdown tail of `start`, run after the app loop breaks
on `AppInstruction::Exit` (src/common/mod.rs lines 589-612), as its ordered
effect sequence. -/
def cooperativeShutdownEffects (rows : Nat) : List AppEffect :=
  [ .sendServer .Exit
  , .sendScreen .Exit
  , .sendPlugin .Exit
  , .joinScreenThread
  , .joinWasmThread
  , .joinIpcThread
  , .joinRouterThread
  , .unsetRawMode
  , .writeStdout (goodbye_message rows)
  , .flushStdout ]

/-- The bytes a sequence of app-dispatcher effects writes to stdout, in
order. -/
def stdoutOf : List AppEffect → String
  | [] => ""
  | .writeStdout s :: rest => s ++ stdoutOf rest
  | _ :: rest => stdoutOf rest

/-- The subsequence of bus sends in an effect sequence. -/
def busSendsOf : List AppEffect → List AppEffect
  | [] => []
  | .sendServer i :: rest => .sendServer i :: busSendsOf rest
  | .sendScreen i :: rest => .sendScreen i :: busSendsOf rest
  | .sendPlugin i :: rest => .sendPlugin i :: busSendsOf rest
  | .sendPtyDirect i :: rest => .sendPtyDirect i :: busSendsOf rest
  | .sendRouter i :: rest => .sendRouter i :: busSendsOf rest
  | _ :: rest => busSendsOf rest

/-- `CliArgs` (src/cli.rs is not among the provided sources; the fields are
those main.rs and common/mod.rs read: `split: Option<char>`,
`move_focus: bool`, `open_file: Option<PathBuf>`, `layout: Option<PathBuf>`,
`max_panes: Option<usize>`, `debug: bool`). -/
structure CliArgs where
  split : Option Char
  move_focus : Bool
  open_file : Option PathBuf
  layout : Option PathBuf
  max_panes : Option Nat
  debug : Bool
  deriving DecidableEq, Repr

/-- What one process run of `main` (src/main.rs lines 26-60) does, as far
as the drive-by claims observe it. -/
structure MainRun where
  sentToServer : List ServerInstruction
  startedSession : Bool
  exitCode : Nat
  deriving DecidableEq, Repr

/-- Exit code of a Rust process that dies by panic (here: the `unwrap` on
opening the well-known server ring buffer when no server exists). -/
def panicExitCode : Nat := 101

/-- One drive-by send in `main`: `IpcSenderWithContext::new()` opens the
well-known server ring buffer (panicking if it cannot be opened) and the
instruction is sent on it (src/main.rs lines 31-53). -/
def driveBySend (serverReachable : Bool) (i : ServerInstruction) : MainRun :=
  if serverReachable then ⟨[i], false, 0⟩
  else ⟨[], false, panicExitCode⟩

/-- `main` (src/main.rs lines 26-60): the `--split` directive is examined
first; a split character other than `h`/`v` falls through the wildcard arm
and the process exits without sending; absent `--split`, `--move-focus`
then `--open-file` are tried; with no directive the process becomes the
session (`start`). -/
def mainRun (opts : CliArgs) (serverReachable : Bool) : MainRun :=
  match opts.split with
  | some split_dir =>
      match split_dir with
      | 'h' => driveBySend serverReachable .SplitHorizontally
      | 'v' => driveBySend serverReachable .SplitVertically
      | _ => ⟨[], false, 0⟩
  | none =>
      if opts.move_focus then driveBySend serverReachable .MoveFocus
      else
        match opts.open_file with
        | some file_to_open => driveBySend serverReachable (.OpenFile file_to_open)
        | none => ⟨[], true, 0⟩

/-- The user plugin directory
(`ProjectDirs::from("org","Mosaic Contributors","Mosaic").data_dir().join("plugins/")`,
src/common/mod.rs lines 404-406). -/
def plugin_dir : PathBuf := .base "org.Mosaic Contributors.Mosaic/data/plugins/"

/-- The system plugin directory (`MOSAIC_ROOT_PLUGIN_DIR`,
src/common/mod.rs line 407; the constant lives in src/common/utils, not
among the provided sources). -/
def root_plugin_dir : PathBuf := .base "MOSAIC_ROOT_PLUGIN_DIR"

/-- A filesystem view for `fs::read`: which paths are readable files, and
their bytes. -/
def FileSystem : Type := PathBuf → Option (List Nat)

/-- The plugin-binary resolution chain of the `Load` arm (src/common/mod.rs
lines 408-414): `fs::read(&path)`, or-else the same path with the `wasm`
extension, or-else the path joined under the user plugin directory with the
`wasm` extension, or-else the same under the system plugin directory;
`none` is the final `panic!("cannot find plugin ...")`. -/
def readWasmBytes (fs : FileSystem) (path : PathBuf) : Option (List Nat) :=
  (fs path).orElse fun _ =>
    (fs path.with_extension_wasm).orElse fun _ =>
      (fs (plugin_dir.join path).with_extension_wasm).orElse fun _ =>
        fs (root_plugin_dir.join path).with_extension_wasm

/-- A loaded plugin instance together with its environment (the
`(Instance, PluginEnv)` pair stored in `plugin_map`); the module handle is
identified by the bytes it was compiled from. -/
structure PluginInstance where
  plugin_id : Nat
  wasm_bytes : List Nat
  deriving DecidableEq, Repr

/-- The wasm thread's mutable state: the next plugin id and the
`plugin_map` (src/common/mod.rs lines 392-393), the map as an association
list keyed by plugin id. -/
structure PluginHostState where
  plugin_id : Nat
  plugin_map : List (Nat × PluginInstance)
  deriving DecidableEq, Repr

/-- The wasm thread's state at startup: `plugin_id = 0`, empty map
(src/common/mod.rs lines 392-393). -/
def initialPluginHostState : PluginHostState := ⟨0, []⟩

/-- `HashMap::get`. -/
def mapGet (m : List (Nat × PluginInstance)) (k : Nat) : Option PluginInstance :=
  match m with
  | [] => none
  | (k', v) :: rest => if k' = k then some v else mapGet rest k

/-- `HashMap::insert` (fresh keys only in this program). -/
def mapInsert (m : List (Nat × PluginInstance)) (k : Nat) (v : PluginInstance) :
    List (Nat × PluginInstance) :=
  (k, v) :: m

/-- `HashMap::remove`. -/
def mapRemove (m : List (Nat × PluginInstance)) (k : Nat) : List (Nat × PluginInstance) :=
  m.filter fun kv => kv.1 ≠ k

/-- Observable actions of one wasm-thread loop iteration. -/
inductive PluginEffect where
  | repliedId (pid_tx : Nat) (id : Nat)
  | calledDraw (buf_tx : Nat) (pid : Nat) (rows : Nat) (cols : Nat)
  | deliveredKeys (pid : Nat) (bytes : List Nat)
  | sentScreen (i : ScreenInstruction)
  deriving DecidableEq, Repr

/-- Result of one wasm-thread loop iteration: continue with a new state and
effects, break out of the loop, or die by panic. -/
inductive PluginHostStep where
  | continues (s : PluginHostState) (effects : List PluginEffect)
  | halts
  | panicked
  deriving DecidableEq, Repr

/-- One iteration of the wasm thread loop (src/common/mod.rs lines
395-505). `Load`: resolve the module bytes (panicking when no candidate
exists), instantiate, run `_start`, store under the current `plugin_id`,
reply with that id, increment. `Draw`/`Input`: `plugin_map.get(&pid).unwrap()`
panics when the id is absent. `Input`/`GlobalInput` deliver the keys and
then send `Render` to the screen. `Unload` removes the map entry.
`Exit` breaks. -/
def pluginHostStep (fs : FileSystem) (s : PluginHostState) :
    PluginInstruction → PluginHostStep
  | .Load pid_tx path =>
      match readWasmBytes fs path with
      | none => .panicked
      | some wasm_bytes =>
          .continues
            ⟨s.plugin_id + 1,
             mapInsert s.plugin_map s.plugin_id ⟨s.plugin_id, wasm_bytes⟩⟩
            [.repliedId pid_tx s.plugin_id]
  | .Draw buf_tx pid rows cols =>
      match mapGet s.plugin_map pid with
      | none => .panicked
      | some _ => .continues s [.calledDraw buf_tx pid rows cols]
  | .Input pid input_bytes =>
      match mapGet s.plugin_map pid with
      | none => .panicked
      | some _ =>
          .continues s [.deliveredKeys pid input_bytes, .sentScreen .Render]
  | .GlobalInput input_bytes =>
      .continues s
        ((s.plugin_map.map fun kv => .deliveredKeys kv.1 input_bytes)
          ++ [.sentScreen .Render])
  | .Unload pid => .continues ⟨s.plugin_id, mapRemove s.plugin_map pid⟩ []
  | .Exit => .halts

/-- The ipc_server's per-client reply state: the buffer path over which
`ClientInstruction`s are pushed back to the connected client. -/
structure ServerClientState where
  client_buffer_path : Option String
  deriving DecidableEq, Repr

/-- Modelled from the spec: the handling of `ServerInstruction::NewClient`.
The ipc_server match in src/server/mod.rs lines 130-170 has no `NewClient`
arm (the spec records two diverging `start_server` variants as an open
question), so this follows spec §4.5: `NewClient(buffer_path)` registers
the reply channel and triggers a `NewTab`. -/
def handleNewClient (_s : ServerClientState) (buffer_path : String) :
    ServerClientState × List ServerSend :=
  (⟨some buffer_path⟩, [.toPty .NewTab])

/-- A demonstration filesystem holding exactly one file, the plugin binary
at its caller-supplied path. -/
def demoFs : FileSystem :=
  fun q => if q = .base "status-bar" then some [0, 97, 115, 109] else none

/-- A demonstration filesystem with no readable files. -/
def emptyFs : FileSystem := fun _ => none

/-- After any `add_call`, the chain is non-empty and the appended entry is
its last element (both branches of the capacity test end in `++ [c]`). -/
theorem ErrorContext.add_call_last (ctx : ErrorContext) (c : ContextType) :
    0 < (ctx.add_call c).calls.length ∧ (ctx.add_call c).calls.getLast? = some c := by
  unfold ErrorContext.add_call
  split <;> simp

/-- C1: in each of the five handler loops (screen, plugin host, pty bus,
ipc_server, app dispatcher), the `ErrorContext` received with an
instruction is, after the loop's `add_call`, non-empty, and its last entry
is the `ContextType` naming the bus handling the instruction. -/
theorem handler_ctx_nonempty_last_names_bus (ctx : ErrorContext)
    (es : ScreenInstruction) (ep : PluginInstruction) (et : PtyInstruction)
    (ea : AppInstruction) :
    (0 < (screenLoopCtxUpdate es ctx).calls.length ∧
      (screenLoopCtxUpdate es ctx).calls.getLast? =
        some (.Screen (ScreenContext.fromInstruction es))) ∧
    (0 < (pluginLoopCtxUpdate ep ctx).calls.length ∧
      (pluginLoopCtxUpdate ep ctx).calls.getLast? =
        some (.Plugin (PluginContext.fromInstruction ep))) ∧
    (0 < (ptyLoopCtxUpdate et ctx).calls.length ∧
      (ptyLoopCtxUpdate et ctx).calls.getLast? =
        some (.Pty (PtyContext.fromInstruction et))) ∧
    (0 < (ipcServerLoopCtxUpdate ctx).calls.length ∧
      (ipcServerLoopCtxUpdate ctx).calls.getLast? = some .IPCServer) ∧
    (0 < (appLoopCtxUpdate ea ctx).calls.length ∧
      (appLoopCtxUpdate ea ctx).calls.getLast? =
        some (.App (AppContext.fromInstruction ea))) :=
  ⟨ErrorContext.add_call_last ctx _, ErrorContext.add_call_last ctx _,
   ErrorContext.add_call_last ctx _, ErrorContext.add_call_last ctx _,
   ErrorContext.add_call_last ctx _⟩

/-- C4: the ipc_server loop dispatches each `ServerInstruction` as claimed:
`SplitHorizontally`/`SplitVertically` become the corresponding spawn on the
pty bus with no file, `OpenFile(p)` becomes `SpawnTerminal(Some(p))`,
`MoveFocus` becomes `AppInstruction::ToScreen(ScreenInstruction::MoveFocus)`,
`ToPty(i)` forwards `i` to the pty bus, `ToScreen(i)` forwards
`AppInstruction::ToScreen(i)`, and `ClosePluginPane(pid)` becomes
`AppInstruction::ToPlugin(PluginInstruction::Unload(pid))`. -/
theorem ipc_server_dispatch_table (p : PathBuf) (pi : PtyInstruction)
    (si : ScreenInstruction) (pid : Nat) :
    serverDispatch .SplitHorizontally =
      .continues [.toPty (.SpawnTerminalHorizontally none)] ∧
    serverDispatch .SplitVertically =
      .continues [.toPty (.SpawnTerminalVertically none)] ∧
    serverDispatch (.OpenFile p) = .continues [.toPty (.SpawnTerminal (some p))] ∧
    serverDispatch .MoveFocus = .continues [.toApp (.ToScreen .MoveFocus)] ∧
    serverDispatch (.ToPty pi) = .continues [.toPty pi] ∧
    serverDispatch (.ToScreen si) = .continues [.toApp (.ToScreen si)] ∧
    serverDispatch (.ClosePluginPane pid) =
      .continues [.toApp (.ToPlugin (.Unload pid))] :=
  ⟨rfl, rfl, rfl, rfl, rfl, rfl, rfl⟩

/-- C5: handling `NewClient(buffer_path)` registers `buffer_path` as the
reply channel for pushing client instructions back and triggers a `NewTab`
on the pty bus (behaviour modelled from the spec; the provided ipc_server
match has no `NewClient` arm). -/
theorem new_client_registers_reply_and_new_tab (s : ServerClientState)
    (buffer_path : String) :
    (handleNewClient s buffer_path).1.client_buffer_path = some buffer_path ∧
    (handleNewClient s buffer_path).2 = [.toPty .NewTab] :=
  ⟨rfl, rfl⟩

/-- C10: `try_send` on a `SenderWithContext` whose inner sender is the
unbounded `Sender` flavor panics unconditionally, for every message and
context; on the `SyncSender` flavor it is total — it returns `ok` below
capacity and the `Full` error at capacity, never a panic. -/
theorem try_send_panics_on_unbounded_flavor {T : Type} (ctx ctx' : ErrorContext)
    (q : List (T × ErrorContext)) (c : BoundedChan (T × ErrorContext)) (msg : T) :
    SenderWithContext.trySendMsg ⟨ctx, .Sender q⟩ msg = .panicked ∧
    SenderWithContext.trySendMsg ⟨ctx', .SyncSender c⟩ msg =
      (if c.queue.length < c.cap then
        .ok (.SyncSender ⟨c.cap, c.queue ++ [(msg, ctx')]⟩)
      else .fullErr) :=
  ⟨rfl, rfl⟩

/-- C3: an invocation carrying a drive-by directive (`--split h`,
`--split v`, `--move-focus` with no split flag, or `--open-file p` with
neither) does not start a session; with a reachable server it sends exactly
the one corresponding `ServerInstruction` over the well-known ring buffer
and exits 0; with no reachable server it exits non-zero (the `unwrap` on
opening the buffer panics) without sending. -/
theorem drive_by_sends_one_instruction (opts : CliArgs) (p : PathBuf) :
    (opts.split = some 'h' →
      mainRun opts true = ⟨[.SplitHorizontally], false, 0⟩ ∧
      mainRun opts false = ⟨[], false, panicExitCode⟩) ∧
    (opts.split = some 'v' →
      mainRun opts true = ⟨[.SplitVertically], false, 0⟩ ∧
      mainRun opts false = ⟨[], false, panicExitCode⟩) ∧
    (opts.split = none → opts.move_focus = true →
      mainRun opts true = ⟨[.MoveFocus], false, 0⟩ ∧
      mainRun opts false = ⟨[], false, panicExitCode⟩) ∧
    (opts.split = none → opts.move_focus = false → opts.open_file = some p →
      mainRun opts true = ⟨[.OpenFile p], false, 0⟩ ∧
      mainRun opts false = ⟨[], false, panicExitCode⟩) ∧
    panicExitCode ≠ 0 := by
  refine ⟨fun h => ?_, fun h => ?_, fun h hm => ?_, fun h hm ho => ?_, by decide⟩ <;>
    simp [mainRun, driveBySend, h] <;> simp_all [mainRun, driveBySend]

/-- Witness for C3 at the concrete invocation `--split h`. -/
theorem drive_by_sends_one_instruction_witness :
    (⟨some 'h', false, none, none, none, false⟩ : CliArgs).split = some 'h' ∧
    mainRun ⟨some 'h', false, none, none, none, false⟩ true =
      ⟨[.SplitHorizontally], false, 0⟩ ∧
    mainRun ⟨some 'h', false, none, none, none, false⟩ false =
      ⟨[], false, panicExitCode⟩ :=
  ⟨rfl,
   (drive_by_sends_one_instruction ⟨some 'h', false, none, none, none, false⟩
      (.base "f")).1 rfl⟩

/-- C2, evaluated at the failing input `AppInstruction::Error("bt")` with
24 screen rows: the Error arm does send `Exit` to the server, screen and
plugin buses, join the screen/wasm/ipc threads, unset raw mode and exit
with code 1, but the only bytes it writes to stdout are the
goto-last-line sequence, a newline and the backtrace — the final output
does not end with alternate-screen-off, style-reset and cursor-show before
the backtrace as the claim (and spec scenario 5) requires. -/
theorem error_arm_output_at_failing_input :
    errorArmEffects 24 "bt" =
      [ .sendServer .Exit, .sendScreen .Exit, .sendPlugin .Exit,
        .joinScreenThread, .joinWasmThread, .joinIpcThread,
        .unsetRawMode, .writeStdout "\x1b[24;1H\nbt", .exitProcess 1 ] ∧
    stdoutOf (errorArmEffects 24 "bt") = "\x1b[24;1H\nbt" ∧
    (stdoutOf (errorArmEffects 24 "bt")).endsWith
      (restore_snapshot ++ reset_style ++ show_cursor ++ "bt") = false := by
  refine ⟨?_, ?_, ?_⟩ <;> decide

/-- C9 counterexample: at 24 screen rows, the bus sends of the cooperative
shutdown are `Exit` to the server ring buffer (the IPC server), then to the
screen, then to the plugin host — not, as claimed, `Exit` to screen,
plugin, pty bus, IPC server and client router in that order. -/
theorem cooperative_shutdown_order_cex :
    busSendsOf (cooperativeShutdownEffects 24) =
      [.sendServer .Exit, .sendScreen .Exit, .sendPlugin .Exit] ∧
    busSendsOf (cooperativeShutdownEffects 24) ≠
      [.sendScreen .Exit, .sendPlugin .Exit, .sendPtyDirect .Quit,
       .sendServer .Exit, .sendRouter .Exit] := by
  refine ⟨?_, ?_⟩ <;> decide

/-- C9 as amended: on cooperative shutdown the app dispatcher sends `Exit`
to the IPC server (over the server ring buffer), then to the screen, then
to the plugin host, in that order — nothing is sent directly to the pty bus
(the IPC server forwards `Quit` to it and joins it) or to the client
router; each recipient loop stops at its exit instruction; and the screen,
wasm, ipc-server and router threads are all joined before the goodbye
message is written (joins occupy positions 3-6 of the effect sequence, the
goodbye write position 8). -/
theorem cooperative_shutdown_sequence (rows : Nat) :
    cooperativeShutdownEffects rows =
      [ .sendServer .Exit, .sendScreen .Exit, .sendPlugin .Exit,
        .joinScreenThread, .joinWasmThread, .joinIpcThread, .joinRouterThread,
        .unsetRawMode, .writeStdout (goodbye_message rows), .flushStdout ] ∧
    screenLoopContinues .Exit = false ∧
    ptyLoopContinues .Quit = false ∧
    routerLoopContinues .Exit = false ∧
    pluginHostStep emptyFs initialPluginHostState .Exit = .halts ∧
    serverDispatch .Exit = .quits [.toPty .Quit] :=
  ⟨rfl, rfl, rfl, rfl, rfl, rfl⟩

/-- Looking a key up after `mapRemove` never finds it. -/
theorem mapGet_mapRemove (m : List (Nat × PluginInstance)) (k : Nat) :
    mapGet (mapRemove m k) k = none := by
  induction m with
  | nil => rfl
  | cons kv rest ih =>
    by_cases h : kv.1 = k <;>
      simp [mapRemove, List.filter_cons, h, mapGet] at * <;>
      simp_all [mapGet, h]

/-- C6 counterexample: with one plugin loaded under id 0, `Unload(0)`
removes it; the subsequent `Input(0, [106])` is not silently dropped — the
`plugin_map.get(&pid).unwrap()` in the Input arm panics, aborting the host
loop, contrary to the claim. -/
theorem input_after_unload_cex :
    pluginHostStep emptyFs ⟨1, [(0, ⟨0, [0]⟩)]⟩ (.Unload 0) =
      .continues ⟨1, []⟩ [] ∧
    pluginHostStep emptyFs ⟨1, []⟩ (.Input 0 [106]) = .panicked ∧
    pluginHostStep emptyFs ⟨1, []⟩ (.Input 0 [106]) ≠ .continues ⟨1, []⟩ [] := by
  refine ⟨?_, ?_, ?_⟩ <;> decide

/-- C6 as amended: `Unload(pid)` removes plugin `pid` from the plugin map
(and changes nothing else), after which `pid` is absent from the map; a
subsequent `Input(pid, bytes)` to any state whose map lacks `pid` panics
the plugin host — the keys are not delivered and the loop aborts rather
than dropping the message silently. -/
theorem input_after_unload_panics (fs : FileSystem) (s : PluginHostState)
    (pid : Nat) (bytes : List Nat) :
    pluginHostStep fs s (.Unload pid) =
      .continues ⟨s.plugin_id, mapRemove s.plugin_map pid⟩ [] ∧
    mapGet (mapRemove s.plugin_map pid) pid = none ∧
    (mapGet s.plugin_map pid = none →
      pluginHostStep fs s (.Input pid bytes) = .panicked) := by
  refine ⟨rfl, mapGet_mapRemove s.plugin_map pid, fun h => ?_⟩
  simp [pluginHostStep, h]

/-- Witness for C6 (amended) after unloading the only plugin. -/
theorem input_after_unload_panics_witness :
    mapGet (PluginHostState.plugin_map ⟨1, []⟩) 0 = none ∧
    pluginHostStep emptyFs ⟨1, []⟩ (.Input 0 [106]) = .panicked :=
  ⟨rfl, (input_after_unload_panics emptyFs ⟨1, []⟩ 0 [106]).2.2 rfl⟩

/-- C7: plugin ids are assigned sequentially starting at 0 and the module
bytes come from the first existing candidate of, in order: the
caller-supplied path, the same path with the `wasm` extension, the path
under the user plugin directory (with the `wasm` extension), the path under
the system plugin directory (with the `wasm` extension); a successful
`Load` stores the instance under the current id, replies with that id on
the reply channel and increments the id by one. -/
theorem plugin_load_resolution_and_ids (fs : FileSystem) (s : PluginHostState)
    (p : PathBuf) (pid_tx : Nat) (b : List Nat) :
    initialPluginHostState.plugin_id = 0 ∧
    (fs p = some b → readWasmBytes fs p = some b) ∧
    (fs p = none → fs p.with_extension_wasm = some b →
      readWasmBytes fs p = some b) ∧
    (fs p = none → fs p.with_extension_wasm = none →
      fs (plugin_dir.join p).with_extension_wasm = some b →
      readWasmBytes fs p = some b) ∧
    (fs p = none → fs p.with_extension_wasm = none →
      fs (plugin_dir.join p).with_extension_wasm = none →
      readWasmBytes fs p = fs (root_plugin_dir.join p).with_extension_wasm) ∧
    (readWasmBytes fs p = some b →
      pluginHostStep fs s (.Load pid_tx p) =
        .continues
          ⟨s.plugin_id + 1, mapInsert s.plugin_map s.plugin_id ⟨s.plugin_id, b⟩⟩
          [.repliedId pid_tx s.plugin_id]) := by
  refine ⟨rfl, fun h1 => ?_, fun h1 h2 => ?_, fun h1 h2 h3 => ?_,
    fun h1 h2 h3 => ?_, fun h => ?_⟩
  · simp [readWasmBytes, Option.orElse, h1]
  · simp [readWasmBytes, Option.orElse, h1, h2]
  · simp [readWasmBytes, Option.orElse, h1, h2, h3]
  · simp [readWasmBytes, Option.orElse, h1, h2, h3]
  · simp [pluginHostStep, h]

/-- Witness for C7: a filesystem holding the plugin at its caller-supplied
path; loading from the initial host state replies with id 0 and stores the
instance under id 0. -/
theorem plugin_load_resolution_and_ids_witness :
    demoFs (.base "status-bar") = some [0, 97, 115, 109] ∧
    readWasmBytes demoFs (.base "status-bar") = some [0, 97, 115, 109] ∧
    pluginHostStep demoFs initialPluginHostState (.Load 3 (.base "status-bar")) =
      .continues ⟨1, [(0, ⟨0, [0, 97, 115, 109]⟩)]⟩ [.repliedId 3 0] := by
  have h := plugin_load_resolution_and_ids demoFs initialPluginHostState
    (.base "status-bar") 3 [0, 97, 115, 109]
  have h1 : demoFs (.base "status-bar") = some [0, 97, 115, 109] := rfl
  exact ⟨h1, h.2.1 h1, h.2.2.2.2.2 (h.2.1 h1)⟩

/-- C8: the app dispatcher channel is created with `sync_channel(500)`;
`try_send` on its `SenderWithContext` returns the `Full` error (rather than
blocking) exactly when 500 messages are already undelivered, and both
`send` and `try_send` succeed on a non-full channel, enqueueing the message
with the sender's context. -/
theorem app_channel_backpressure (q : List (AppInstruction × ErrorContext))
    (ctx : ErrorContext) (msg : AppInstruction) :
    appChannelCapacity = 500 ∧
    initialAppChannel = ⟨500, []⟩ ∧
    (q.length = 500 →
      SenderWithContext.trySendMsg ⟨ctx, .SyncSender ⟨500, q⟩⟩ msg = .fullErr) ∧
    (q.length < 500 →
      SenderWithContext.trySendMsg ⟨ctx, .SyncSender ⟨500, q⟩⟩ msg =
        .ok (.SyncSender ⟨500, q ++ [(msg, ctx)]⟩) ∧
      SenderWithContext.sendMsg ⟨ctx, .SyncSender ⟨500, q⟩⟩ msg =
        .delivered (.SyncSender ⟨500, q ++ [(msg, ctx)]⟩)) := by
  refine ⟨rfl, rfl, fun h => ?_, fun h => ⟨?_, ?_⟩⟩ <;>
    simp [SenderWithContext.trySendMsg, SenderWithContext.sendMsg, h]

/-- Witness for C8 on a channel holding exactly 500 undelivered messages:
`try_send` returns the `Full` error. -/
theorem app_channel_backpressure_witness :
    (List.replicate 500 (AppInstruction.Exit, ErrorContext.new)).length = 500 ∧
    SenderWithContext.trySendMsg
      ⟨ErrorContext.new,
       .SyncSender ⟨500, List.replicate 500 (AppInstruction.Exit, ErrorContext.new)⟩⟩
      AppInstruction.Exit = .fullErr :=
  ⟨by simp only [List.length_replicate],
   (app_channel_backpressure
      (List.replicate 500 (AppInstruction.Exit, ErrorContext.new))
      ErrorContext.new AppInstruction.Exit).2.2.1
     (by simp only [List.length_replicate])⟩

end Mosaic
